import Mathlib

/-!
Verification of the HSEG core scoring, aggregation and decision engine.

Shallow embedding of the deterministic parts of:
  app/core/scoring.py
  app/models/individual_risk_model.py
  app/models/text_risk_classifier.py
  app/models/organizational_risk_model.py

Python floats are modelled as rationals (ℚ); the decimal literals of the
source (0.4, 2.5, 55.5, ...) are written as exact rationals.  Machine-learned
collaborators (the ensemble category predictor, the BERT classifier, the
LightGBM organizational models, the sentiment pipeline) are modelled as
inputs, exactly at the boundaries where the source reads their outputs.
-/

/-! ### app/core/scoring.py -/

/-- The six categories in the insertion order of the source configuration
dicts.  Source category ids 1..6 correspond to `Fin 6` values 0..5. -/
def category_ids : List (Fin 6) := [0, 1, 2, 3, 4, 5]

/-- CATEGORY_CONFIG weights: 3.0, 2.5, 2.0, 3.0, 2.5, 2.0 for ids 1..6. -/
def category_weight (i : Fin 6) : ℚ := [3, 5/2, 2, 3, 5/2, 2].getD i.val 2

/-- CATEGORY_CONFIG num_questions: 4, 3, 3, 4, 4, 4 for ids 1..6. -/
def category_num_questions (i : Fin 6) : ℚ := [4, 3, 3, 4, 4, 4].getD i.val 3

/-- MAX_TOTAL_POINTS = 55.5 -/
def MAX_TOTAL_POINTS : ℚ := 111/2

/-- NORMALIZED_MAX = 28.0 -/
def NORMALIZED_MAX : ℚ := 28

/-- normalize_points_to_28: (total_weighted_points / 55.5) * 28. -/
def normalize_points_to_28 (total_weighted_points : ℚ) : ℚ :=
  total_weighted_points / MAX_TOTAL_POINTS * NORMALIZED_MAX

/-! ### app/models/individual_risk_model.py, IndividualRiskPredictor.predict

The six category scores (the clamped, rounded outputs of the ensemble
models, each in [1.0, 4.0]) are the input `scores : Fin 6 → ℚ`.  The
3-decimal display rounding of `category_weighted_points` is presentation
only (the accumulated total uses the unrounded contribution) and is not
modelled. -/

/-- Per-category contribution: (score / 4.0) * (num_questions * weight). -/
def category_contribution (scores : Fin 6 → ℚ) (i : Fin 6) : ℚ :=
  scores i / 4 * (category_num_questions i * category_weight i)

/-- total_weighted_points: the sum of the six contributions (the source
accumulates over the dict entries; addition order is irrelevant). -/
def total_weighted_points (scores : Fin 6 → ℚ) : ℚ :=
  ∑ i : Fin 6, category_contribution scores i

/-- overall_score_28 as computed in IndividualRiskPredictor.predict. -/
def overall_score_28 (scores : Fin 6 → ℚ) : ℚ :=
  normalize_points_to_28 (total_weighted_points scores)

/-- Overall tier assignment against THRESHOLDS_28 (crisis_max 12.0,
at_risk_max 16.0, mixed_max 20.0, safe_max 24.0), upper bounds inclusive.
The tier strings are exactly the string literals of the source. -/
def individual_overall_tier (s : ℚ) : String :=
  if s ≤ 12 then "Crisis"
  else if s ≤ 16 then "At Risk"
  else if s ≤ 20 then "Mixed"
  else if s ≤ 24 then "Safe"
  else "Thriving"

/-- IndividualRiskPredictor._identify_risk_factors category_names table
(ids 1..6).  The source default for an id outside 1..6 is unreachable. -/
def category_factor_label (i : Fin 6) : String :=
  [ "Authority abuse and retaliation fears"
  , "Discrimination and exclusion experiences"
  , "Emotional manipulation and boundary violations"
  , "System accountability failures"
  , "Work-related mental health harm"
  , "Voice suppression and disempowerment" ].getD i.val ""

def crisis_factor_label : String := "Crisis-level language in responses"

def incident_factor_label : String := "Specific harmful incidents reported"

def tenure_factor_label : String := "New employee vulnerability"

/-- IndividualRiskPredictor._identify_risk_factors.  The loop iterates the
category_scores dict in insertion order, i.e. ascending category id; then the
two text-analysis flags, then the tenure flag; finally `factors[:5]`. -/
def identify_risk_factors (scores : Fin 6 → ℚ)
    (crisis_language_present specific_incident_described tenure_under_1yr : Bool) :
    List String :=
  ((category_ids.filter (fun i => decide (scores i < 2))).map category_factor_label
    ++ (if crisis_language_present then [crisis_factor_label] else [])
    ++ (if specific_incident_described then [incident_factor_label] else [])
    ++ (if tenure_under_1yr then [tenure_factor_label] else [])).take 5

/-- One entry of the intervention_mapping table of
IndividualRiskPredictor._generate_interventions. -/
structure InterventionRec where
  category : String
  intervention : String
  urgency : String
  effort : String
  impact : String
deriving DecidableEq, Repr

/-- The fixed intervention_mapping lookup table (ids 1..6). -/
def intervention_mapping (i : Fin 6) : InterventionRec :=
  [ ⟨"Power Abuse & Suppression", "Management training on psychological safety",
      "Immediate", "Medium", "High"⟩
  , ⟨"Discrimination & Exclusion", "DEI training and policy enforcement",
      "High", "Medium", "High"⟩
  , ⟨"Manipulative Work Culture", "Culture alignment and values training",
      "Medium", "Low", "Medium"⟩
  , ⟨"Failure of Accountability", "Investigation process overhaul",
      "Immediate", "High", "High"⟩
  , ⟨"Mental Health Harm", "Employee assistance program expansion",
      "Immediate", "Low", "High"⟩
  , ⟨"Erosion of Voice & Autonomy", "Employee empowerment initiatives",
      "Medium", "Medium", "Medium"⟩ ].getD i.val ⟨"", "", "", "", ""⟩

/-- Ascending comparison on (category, score) pairs, the key of
`sorted(category_scores.items(), key=lambda x: x[1])`. -/
def score_le (a b : Fin 6 × ℚ) : Prop := a.2 ≤ b.2

instance : DecidableRel score_le := fun a b => inferInstanceAs (Decidable (a.2 ≤ b.2))

instance : IsTotal (Fin 6 × ℚ) score_le := ⟨fun a b => le_total a.2 b.2⟩

instance : IsTrans (Fin 6 × ℚ) score_le := ⟨fun _ _ _ hab hbc => le_trans hab hbc⟩

/-- category_scores.items() in insertion (category id) order. -/
def score_items (scores : Fin 6 → ℚ) : List (Fin 6 × ℚ) :=
  category_ids.map (fun i => (i, scores i))

/-- The stable ascending sort of the (category, score) items. -/
def sorted_score_items (scores : Fin 6 → ℚ) : List (Fin 6 × ℚ) :=
  List.insertionSort score_le (score_items scores)

/-- The three lowest-scoring categories (ties broken by category id, as in
Python's stable sort). -/
def worst_three (scores : Fin 6 → ℚ) : List (Fin 6 × ℚ) :=
  (sorted_score_items scores).take 3

/-- IndividualRiskPredictor._generate_interventions. -/
def generate_interventions (scores : Fin 6 → ℚ) (overall_tier : String) :
    List InterventionRec :=
  if overall_tier == "Crisis" || overall_tier == "At Risk" then
    ((worst_three scores).filter (fun p => decide (p.2 < 5/2))).map
      (fun p => intervention_mapping p.1)
  else []

/-! ### app/models/text_risk_classifier.py, TextRiskClassifier

The deterministic rule-based part of `predict_text_risk`: preprocessing,
crisis-language detection and the reduction of category risks plus the
crisis flag to an overall risk level.  The per-category risks (whether from
`_rule_based_classification` or the BERT path) enter as an input
`category_risks : Fin 6 → ℚ`, exactly where `predict_text_risk` reads them.
Python's `str.lower`, `str.strip` and the `\s`, `\w` regex classes are
modelled on their ASCII meaning (all texts involved are ASCII). -/

/-- Membership of Python's regex class `\s` (ASCII). -/
def py_is_space (c : Char) : Bool :=
  c == ' ' || c == '\t' || c == '\n' || c == '\r' || c == '\x0b' || c == '\x0c'

/-- Characters kept by `re.sub(r'[^\w\s.,!?;:-]', '', text)`. -/
def py_keep_char (c : Char) : Bool :=
  c.isAlphanum || c == '_' || py_is_space c ||
    c == '.' || c == ',' || c == '!' || c == '?' || c == ';' || c == ':' || c == '-'

/-- Python `str.strip()`: drop leading and trailing whitespace. -/
def strip_ws (l : List Char) : List Char :=
  ((l.dropWhile py_is_space).reverse.dropWhile py_is_space).reverse

/-- Collapse runs of spaces to a single space (after every whitespace
character has been replaced by a space, this is `re.sub(r'\s+', ' ', _)`). -/
def squeeze_spaces : List Char → List Char
  | [] => []
  | [c] => [c]
  | a :: b :: rest =>
      if a == ' ' && b == ' ' then squeeze_spaces (b :: rest)
      else a :: squeeze_spaces (b :: rest)

/-- TextRiskClassifier.preprocess_text: lowercase and strip, collapse
whitespace, remove characters outside `[\w\s.,!?;:-]`. -/
def preprocess_text (s : String) : String :=
  let lowered := s.toList.map Char.toLower
  let stripped := strip_ws lowered
  let collapsed := squeeze_spaces (stripped.map (fun c => if py_is_space c then ' ' else c))
  String.mk (collapsed.filter py_keep_char)

/-- Python's substring test `needle in hay`. -/
def contains_sub (hay needle : List Char) : Bool :=
  hay.tails.any (fun t => needle.isPrefixOf t)

/-- TextRiskClassifier.crisis_keywords (the fixed high-severity list). -/
def crisis_keywords : List String :=
  [ "suicide", "kill myself", "end it all", "can\x27t go on", "want to die"
  , "no point living", "panic attacks daily", "threatened to fire"
  , "threatened my visa", "called me stupid", "screamed at me"
  , "humiliated publicly", "afraid for safety" ]

/-- TextRiskClassifier.detect_crisis_language: the distinct keywords that
occur (lowercased, as `keyword.lower()`) as substrings of the preprocessed
text. -/
def crisis_signals (text : String) : List String :=
  crisis_keywords.filter
    (fun k => contains_sub (preprocess_text text).toList (k.toList.map Char.toLower))

/-- has_crisis_language = len(crisis_signals) > 0. -/
def has_crisis_language (text : String) : Bool :=
  !(crisis_signals text).isEmpty

/-- crisis_count = number of distinct matched keywords. -/
def crisis_count (text : String) : ℕ := (crisis_signals text).length

/-- TextRiskClassifier.risk_levels: 0 Low, 1 Medium, 2 High, 3 Critical. -/
def risk_level_name (n : ℕ) : String :=
  ["Low", "Medium", "High", "Critical"].getD n "Low"

/-- max(category_risks.values()) over the six category risks. -/
def max_category_risk (risks : Fin 6 → ℚ) : ℚ :=
  max (risks 0) (max (risks 1) (max (risks 2) (max (risks 3) (max (risks 4) (risks 5)))))

/-- The overall risk score of predict_text_risk: Critical (3) whenever the
crisis flag is set; otherwise from max category risk (>= 0.7 High,
>= 0.4 Medium, else Low). -/
def overall_risk_score_of (crisis_flag : Bool) (max_risk : ℚ) : ℕ :=
  if crisis_flag then 3
  else if 7/10 ≤ max_risk then 2
  else if 2/5 ≤ max_risk then 1
  else 0

/-- overall_risk_level of predict_text_risk for a given input text and
category risks. -/
def overall_risk_level_of_text (text : String) (category_risks : Fin 6 → ℚ) : String :=
  risk_level_name
    (overall_risk_score_of (has_crisis_language text) (max_category_risk category_risks))

/-! ### app/models/organizational_risk_model.py, OrganizationalRiskAggregator

`aggregate_individual_predictions`, `calculate_intervention_priorities` and
`predict_organizational_risk`.  The optional LightGBM collaborators enter as
an environment: `ml_risk_tier = some t` models a loaded risk model whose
`predict` succeeded with tier `t` (any exception in that try-block is caught
and leaves the tier `None`), `ml_turnover` likewise.  numpy's population
`std` is `sqrt` of the variance; since `sqrt` leaves ℚ, the model carries
the variance, and `std > 0` is modelled by `variance > 0` (equivalent).
The `round(_, k)` display rounding of the returned dict is presentation
only and is not modelled. -/

/-- One individual prediction, as read by the aggregator: its
'overall_hseg_score', its 'overall_risk_tier' string and its
'category_scores' (1.0-4.0 scale). -/
structure IndividualPrediction where
  overall_hseg_score : ℚ
  overall_risk_tier : String
  category_scores : Fin 6 → ℚ

/-- Mean of a list (callers in scope always pass nonempty lists). -/
def list_mean (l : List ℚ) : ℚ := l.sum / l.length

/-- Population variance (np.std squared). -/
def list_variance (l : List ℚ) : ℚ :=
  ((l.map (fun x => (x - list_mean l) ^ 2)).sum) / l.length

/-- np.min of a nonempty list. -/
def list_min : List ℚ → ℚ
  | [] => 0
  | h :: t => t.foldl min h

/-- np.max of a nonempty list. -/
def list_max : List ℚ → ℚ
  | [] => 0
  | h :: t => t.foldl max h

/-- np.percentile with the default linear interpolation: position
q/100*(n-1) into the ascending sort, interpolating between the two
neighbouring order statistics. -/
def percentile (l : List ℚ) (q : ℚ) : ℚ :=
  let s := List.insertionSort (· ≤ ·) l
  let pos : ℚ := q * ((l.length : ℚ) - 1) / 100
  let i : ℕ := (Rat.floor pos).toNat
  let lo := s.getD i 0
  let hi := s.getD (i + 1) lo
  lo + (pos - (i : ℚ)) * (hi - lo)

/-- The fraction of predictions carrying exactly the tier string `t`
(the source counts tiers into a dict and divides by the list length; a
tier string absent from the dict reads as 0.0). -/
def tier_fraction (preds : List IndividualPrediction) (t : String) : ℚ :=
  ((preds.filter (fun p => p.overall_risk_tier == t)).length : ℚ) / (preds.length : ℚ)

/-- Aggregated statistics of one category (source stores std = sqrt of
`variance`). -/
structure CategoryAgg where
  mean : ℚ
  variance : ℚ
  minv : ℚ
  maxv : ℚ
  p25 : ℚ
  p75 : ℚ
  risk_rate : ℚ

/-- Per-category aggregation; a missing category score defaults to 2.5, so
the scores list is total.  risk_rate: proportion at or below 2.5, with the
source's `max(1, len)` denominator guard. -/
def aggregate_category (preds : List IndividualPrediction) (cid : Fin 6) : CategoryAgg :=
  let scores := preds.map (fun p => p.category_scores cid)
  { mean := list_mean scores
  , variance := list_variance scores
  , minv := list_min scores
  , maxv := list_max scores
  , p25 := percentile scores 25
  , p75 := percentile scores 75
  , risk_rate := ((scores.filter (fun s => decide (s ≤ 5/2))).length : ℚ)
      / ((max 1 scores.length : ℕ) : ℚ) }

/-- The aggregated cohort statistics dict. -/
structure CohortStats where
  sample_size : ℕ
  overall_mean : ℚ
  overall_variance : ℚ
  overall_min : ℚ
  overall_max : ℚ
  overall_p25 : ℚ
  overall_p75 : ℚ
  categories : Fin 6 → CategoryAgg
  risk_distribution : String → ℚ
  crisis_rate : ℚ
  at_risk_rate : ℚ
  safe_rate : ℚ

/-- OrganizationalRiskAggregator.aggregate_individual_predictions.  The
source returns an empty dict for an empty input list; the model is total
and every caller in scope passes a nonempty list. -/
def aggregate_individual_predictions (preds : List IndividualPrediction) : CohortStats :=
  let hseg := preds.map (fun p => p.overall_hseg_score)
  { sample_size := preds.length
  , overall_mean := list_mean hseg
  , overall_variance := list_variance hseg
  , overall_min := list_min hseg
  , overall_max := list_max hseg
  , overall_p25 := percentile hseg 25
  , overall_p75 := percentile hseg 75
  , categories := fun cid => aggregate_category preds cid
  , risk_distribution := fun t => tier_fraction preds t
  , crisis_rate := tier_fraction preds "Crisis"
  , at_risk_rate := tier_fraction preds "At_Risk"
  , safe_rate := tier_fraction preds "Safe" + tier_fraction preds "Thriving" }

/-- The category_weights dict of the organizational model, read through the
`categories` id-to-name map of calculate_intervention_priorities (values
3.0, 2.5, 2.0, 3.0, 2.5, 2.0; the 2.0 `.get` default is unreachable). -/
def org_category_weight (i : Fin 6) : ℚ := [3, 5/2, 2, 3, 5/2, 2].getD i.val 2

/-- The category names used by calculate_intervention_priorities. -/
def org_category_name (i : Fin 6) : String :=
  [ "Power_Abuse_Suppression", "Discrimination_Exclusion", "Manipulative_Work_Culture"
  , "Failure_Of_Accountability", "Mental_Health_Harm", "Erosion_Voice_Autonomy"
  ].getD i.val ""

/-- cat_name.replace('_', ' ').lower(), as interpolated into the
intervention strings. -/
def org_category_lower_name (i : Fin 6) : String :=
  [ "power abuse suppression", "discrimination exclusion", "manipulative work culture"
  , "failure of accountability", "mental health harm", "erosion voice autonomy"
  ].getD i.val ""

/-- One intervention priority entry. -/
structure PriorityRec where
  category : String
  category_id : ℕ
  risk_rate : ℚ
  mean_score : ℚ
  urgency : String
  urgency_score : ℚ
  intervention : String
  estimated_effort : String
  expected_impact : String
deriving DecidableEq, Repr

/-- urgency_score = risk_rate*0.4 + (1 - mean_score/28.0)*0.4 + weight/3.0*0.2. -/
def priority_urgency_score (risk_rate mean_score weight : ℚ) : ℚ :=
  risk_rate * (2/5) + (1 - mean_score/28) * (2/5) + weight/3 * (1/5)

/-- The urgency tier of an urgency score (>0.7 Immediate, >0.5 High,
>0.3 Medium, else Low). -/
def urgency_tier_name (u : ℚ) : String :=
  if 7/10 < u then "Immediate"
  else if 1/2 < u then "High"
  else if 3/10 < u then "Medium"
  else "Low"

/-- The priority entry built for one category inside
calculate_intervention_priorities (risk_rate > 0.5 / > 0.3 bands select the
intervention text, effort and impact). -/
def mk_priority (stats : CohortStats) (i : Fin 6) : PriorityRec :=
  let s := stats.categories i
  let u := priority_urgency_score s.risk_rate s.mean (org_category_weight i)
  { category := org_category_name i
  , category_id := i.val + 1
  , risk_rate := s.risk_rate
  , mean_score := s.mean
  , urgency := urgency_tier_name u
  , urgency_score := u
  , intervention :=
      if 1/2 < s.risk_rate then
        "Immediate systemic intervention required for " ++ org_category_lower_name i
      else if 3/10 < s.risk_rate then
        "Targeted improvements needed in " ++ org_category_lower_name i
      else
        "Monitor and maintain current practices for " ++ org_category_lower_name i
  , estimated_effort :=
      if 1/2 < s.risk_rate then "High" else if 3/10 < s.risk_rate then "Medium" else "Low"
  , expected_impact :=
      if 1/2 < s.risk_rate then "High" else if 3/10 < s.risk_rate then "High" else "Medium" }

/-- Descending urgency-score comparison, the key of
`priorities.sort(key=lambda x: x['urgency_score'], reverse=True)`. -/
def urgency_ge (a b : PriorityRec) : Prop := b.urgency_score ≤ a.urgency_score

instance : DecidableRel urgency_ge :=
  fun a b => inferInstanceAs (Decidable (b.urgency_score ≤ a.urgency_score))

instance : IsTotal PriorityRec urgency_ge := ⟨fun a b => le_total b.urgency_score a.urgency_score⟩

instance : IsTrans PriorityRec urgency_ge := ⟨fun _ _ _ hab hbc => le_trans hbc hab⟩

/-- OrganizationalRiskAggregator.calculate_intervention_priorities: one
entry per category, stably sorted by descending urgency score. -/
def calculate_intervention_priorities (stats : CohortStats) : List PriorityRec :=
  List.insertionSort urgency_ge (category_ids.map (mk_priority stats))

/-- The environment of predict_organizational_risk: the optional ML
collaborators and the organization domain. -/
structure OrgEnv where
  ml_risk_tier : Option String
  ml_turnover : Option ℚ
  domain : String

/-- industry_baselines with the 18.0 `.get` default. -/
def industry_baseline (d : String) : ℚ :=
  if d == "Healthcare" then 33/2
  else if d == "University" then 96/5
  else 18

/-- The heuristic fallback tier of predict_organizational_risk, evaluated
in source order. -/
def heuristic_org_tier (crisis_rate at_risk_rate overall : ℚ) : String :=
  if 3/10 < crisis_rate ∨ overall ≤ 12 then "Crisis"
  else if 3/20 < crisis_rate ∨ 2/5 < at_risk_rate ∨ overall ≤ 16 then "At_Risk"
  else if overall ≤ 20 then "Mixed"
  else if overall ≤ 24 then "Safe"
  else "Thriving"

/-- The predicted_outcomes dict. -/
structure PredictedOutcomes where
  predicted_turnover_rate : ℚ
  predicted_legal_risk : ℚ
  predicted_productivity_impact : ℚ
  predicted_engagement_score : ℚ
  predicted_retention_rate : ℚ

/-- The organizational assessment returned on success. -/
structure OrgAssessment where
  overall_hseg_score : ℚ
  overall_risk_tier : String
  sample_size : ℕ
  confidence_level : ℚ
  statistical_significance : Bool
  category_scores : Fin 6 → ℚ
  predicted_outcomes : PredictedOutcomes
  intervention_priorities : List PriorityRec
  benchmark_percentile : ℚ
  industry_comparison : ℚ
  aggregated_statistics : CohortStats

/-- The message of the ValueError raised below the minimum sample size. -/
def org_validation_error : String :=
  "Minimum 5 individual predictions required for organizational assessment"

/-- The NameError raised when `crisis_rate` is read while unbound. -/
def org_name_error : String := "NameError: name crisis_rate is not defined"

/-- OrganizationalRiskAggregator.predict_organizational_risk.  The local
variable `crisis_rate` is bound only inside the heuristic-fallback branch
(source lines 293-306) yet is read unconditionally by the legal-risk
computation (line 321); the model carries that local as an `Option ℚ` and
raises the NameError exactly where the source would. -/
def predict_organizational_risk (env : OrgEnv) (preds : List IndividualPrediction) :
    Except String OrgAssessment :=
  if preds.length < 5 then Except.error org_validation_error
  else
    let stats := aggregate_individual_predictions preds
    let overall := stats.overall_mean
    let tier_and_local : String × Option ℚ :=
      match env.ml_risk_tier with
      | some t => (t, none)
      | none =>
          (heuristic_org_tier stats.crisis_rate stats.at_risk_rate overall,
           some stats.crisis_rate)
    let sample := preds.length
    let confidence := min (19/20) (1/2 + ((sample : ℚ) - 5) * (1/50))
    let turnover :=
      match env.ml_turnover with
      | some t => t
      | none => 3/20 + max 0 ((18 - overall) / 11) * (7/20)
    match tier_and_local.2 with
    | none => Except.error org_name_error
    | some crisis_rate_local =>
      let legal := min (4/5) (crisis_rate_local * 2 + (1 - overall/28) * (3/10))
      let outcomes : PredictedOutcomes :=
        { predicted_turnover_rate := turnover
        , predicted_legal_risk := legal
        , predicted_productivity_impact := (overall - 14) / 14 * (2/5)
        , predicted_engagement_score := max (1/10) (min 1 (overall/25))
        , predicted_retention_rate := 1 - turnover }
      let baseline := industry_baseline env.domain
      Except.ok
        { overall_hseg_score := overall
        , overall_risk_tier := tier_and_local.1
        , sample_size := sample
        , confidence_level := confidence
        , statistical_significance :=
            decide (30 ≤ sample) && decide (0 < stats.overall_variance)
        , category_scores := fun i => (stats.categories i).mean
        , predicted_outcomes := outcomes
        , intervention_priorities := (calculate_intervention_priorities stats).take 3
        , benchmark_percentile := max 5 (min 95 ((overall - baseline + 5) / 10 * 100))
        , industry_comparison := overall - baseline
        , aggregated_statistics := stats }

/-! ### Theorems -/

/-- C2: with all six category raw scores equal to 1.0 the normalized
28-point score is exactly 7.0, and with all six equal to 4.0 it is exactly
28.0, the contributions and normalization being (raw/4)*numQuestions*weight
and (total/55.5)*28. -/
theorem c2_endpoints :
    overall_score_28 (fun _ => 1) = 7 ∧ overall_score_28 (fun _ => 4) = 28 := by
  constructor <;>
    norm_num [overall_score_28, total_weighted_points, normalize_points_to_28,
      category_contribution, Fin.sum_univ_six, category_num_questions, category_weight,
      MAX_TOTAL_POINTS, NORMALIZED_MAX, show ((3:Fin 6):Nat) = 3 from rfl,
      show ((4:Fin 6):Nat) = 4 from rfl, show ((5:Fin 6):Nat) = 5 from rfl]

/-- C3: the overall tier uses inclusive upper bounds 12 / 16 / 20 / 24 on
the 28-point score (Crisis, At Risk, Mixed, Safe, else Thriving); in
particular 12.0 maps to Crisis, 12.01 to At Risk, 16.0 to At Risk and
16.01 to Mixed. -/
theorem c3_tier_thresholds :
    (∀ s : ℚ,
      (individual_overall_tier s = "Crisis" ↔ s ≤ 12) ∧
      (individual_overall_tier s = "At Risk" ↔ 12 < s ∧ s ≤ 16) ∧
      (individual_overall_tier s = "Mixed" ↔ 16 < s ∧ s ≤ 20) ∧
      (individual_overall_tier s = "Safe" ↔ 20 < s ∧ s ≤ 24) ∧
      (individual_overall_tier s = "Thriving" ↔ 24 < s)) ∧
    individual_overall_tier 12 = "Crisis" ∧
    individual_overall_tier 12.01 = "At Risk" ∧
    individual_overall_tier 16 = "At Risk" ∧
    individual_overall_tier 16.01 = "Mixed" := by
  have key : ∀ s : ℚ,
      (individual_overall_tier s = "Crisis" ↔ s ≤ 12) ∧
      (individual_overall_tier s = "At Risk" ↔ 12 < s ∧ s ≤ 16) ∧
      (individual_overall_tier s = "Mixed" ↔ 16 < s ∧ s ≤ 20) ∧
      (individual_overall_tier s = "Safe" ↔ 20 < s ∧ s ≤ 24) ∧
      (individual_overall_tier s = "Thriving" ↔ 24 < s) := by
    intro s
    unfold individual_overall_tier
    split_ifs with h1 h2 h3 h4 <;>
      refine ⟨?_, ?_, ?_, ?_, ?_⟩ <;>
        constructor <;> intro h <;>
          first
            | rfl
            | (exfalso; revert h; decide)
            | (constructor <;> linarith)
            | linarith
            | (exfalso; linarith [h.1, h.2])
            | (exfalso; linarith)
  refine ⟨key, ?_, ?_, ?_, ?_⟩
  · exact (key 12).1.mpr (by norm_num)
  · exact (key 12.01).2.1.mpr (by norm_num)
  · exact (key 16).2.1.mpr (by norm_num)
  · exact (key 16.01).2.2.1.mpr (by norm_num)

/-- C4: raising any single category raw score (holding the other five
fixed, all scores within [1.0, 4.0]) never decreases the normalized
28-point score. -/
theorem c4_monotonicity :
    ∀ (scores scores' : Fin 6 → ℚ) (i : Fin 6),
      (∀ j, 1 ≤ scores j ∧ scores j ≤ 4) →
      (∀ j, 1 ≤ scores' j ∧ scores' j ≤ 4) →
      (∀ j, j ≠ i → scores' j = scores j) →
      scores i ≤ scores' i →
      overall_score_28 scores ≤ overall_score_28 scores' := by
  intro scores scores' i _ _ heq hle
  unfold overall_score_28 normalize_points_to_28
  have hsum : total_weighted_points scores ≤ total_weighted_points scores' := by
    unfold total_weighted_points
    apply Finset.sum_le_sum
    intro j _
    unfold category_contribution
    by_cases hj : j = i
    · subst hj
      have hw : (0:ℚ) ≤ category_num_questions j * category_weight j := by
        fin_cases j <;> norm_num [category_num_questions, category_weight]
      exact mul_le_mul_of_nonneg_right (by linarith) hw
    · rw [heq j hj]
  have hM : (0:ℚ) < MAX_TOTAL_POINTS := by norm_num [MAX_TOTAL_POINTS]
  have hdiv : total_weighted_points scores / MAX_TOTAL_POINTS
      ≤ total_weighted_points scores' / MAX_TOTAL_POINTS :=
    (div_le_div_iff_of_pos_right hM).mpr hsum
  exact mul_le_mul_of_nonneg_right hdiv (by norm_num [NORMALIZED_MAX])

/-- C4 witness: raising category 1 from 1.0 to 2.0 with the others at 1.0
does not decrease the overall 28-point score. -/
theorem c4_witness :
    overall_score_28 (fun _ => 1) ≤ overall_score_28 (fun j => if j = 0 then 2 else 1) :=
  c4_monotonicity (fun _ => 1) (fun j => if j = 0 then 2 else 1) 0
    (fun _ => by norm_num)
    (fun j => by by_cases h : j = 0 <;> simp [h] <;> norm_num)
    (fun j hj => by simp [hj])
    (by norm_num)

/-- C1 counterexample: the text "I want to end my life" matches none of the
crisis keywords (the list holds 'end it all' and 'want to die' but not
'end my life'), so detect_crisis_language reports no crisis language, and
with all category risks at 0 the overall risk level of predict_text_risk is
Low, not Critical. -/
theorem c1_counterexample :
    has_crisis_language "I want to end my life" = false ∧
    overall_risk_level_of_text "I want to end my life" (fun _ => 0) = "Low" := by
  refine ⟨by decide, ?_⟩
  unfold overall_risk_level_of_text overall_risk_score_of
  rw [show has_crisis_language "I want to end my life" = false from by decide]
  norm_num [max_category_risk, risk_level_name]

/-- C1 amended: for every text in which crisis language is detected the
overall risk level of predict_text_risk is Critical regardless of the
category risk scores; the listed phrase "I want to die" triggers the flag,
while "I want to end my life" matches no crisis keyword. -/
theorem c1_amended_crisis_forces_critical :
    (∀ (text : String) (category_risks : Fin 6 → ℚ),
        has_crisis_language text = true →
        overall_risk_level_of_text text category_risks = "Critical") ∧
    has_crisis_language "I want to die" = true ∧
    has_crisis_language "I want to end my life" = false := by
  refine ⟨?_, by decide, by decide⟩
  intro text risks h
  unfold overall_risk_level_of_text overall_risk_score_of
  rw [h]
  simp [risk_level_name]

/-- C1 witness: the amended theorem applied to the text "I want to die". -/
theorem c1_witness :
    overall_risk_level_of_text "I want to die" (fun _ => 0) = "Critical" :=
  c1_amended_crisis_forces_critical.1 "I want to die" (fun _ => 0) (by decide)

/-- A neutral individual prediction used as a concrete cohort member. -/
def p0 : IndividualPrediction :=
  { overall_hseg_score := 14, overall_risk_tier := "Mixed", category_scores := fun _ => 5/2 }

/-- An environment with a loaded ML risk-tier model whose predict returned
a tier. -/
def env_ml : OrgEnv := { ml_risk_tier := some "Mixed", ml_turnover := none, domain := "Business" }

/-- The environment without ML collaborators (the heuristic fallback). -/
def env_heuristic : OrgEnv := { ml_risk_tier := none, ml_turnover := none, domain := "Business" }

/-- C5: predict_organizational_risk raises its ValidationError exactly when
the cohort has fewer than 5 individual assessments, and (absent the ML tier
collaborator, see the crisis_rate defect) returns an OrganizationalAssessment
exactly when the cohort has at least 5. -/
theorem c5_min_sample_gate :
    ∀ (env : OrgEnv) (preds : List IndividualPrediction),
      (predict_organizational_risk env preds = Except.error org_validation_error ↔
        preds.length < 5) ∧
      (env.ml_risk_tier = none →
        ((∃ a, predict_organizational_risk env preds = Except.ok a) ↔ 5 ≤ preds.length)) := by
  intro env preds
  by_cases h : preds.length < 5
  · refine ⟨by simp [predict_organizational_risk, h], fun _ => ?_⟩
    simp [predict_organizational_risk, h] <;> omega
  · have hne : org_name_error ≠ org_validation_error := by decide
    cases htier : env.ml_risk_tier with
    | some t =>
        refine ⟨?_, fun hnone => by cases hnone⟩
        simp [predict_organizational_risk, h, htier, hne]
    | none =>
        refine ⟨by simp [predict_organizational_risk, h, htier], fun _ => ?_⟩
        simp [predict_organizational_risk, h, htier] <;> omega

/-- C5 witness: a cohort of 4 raises the ValidationError and a cohort of
exactly 5 yields an assessment. -/
theorem c5_witness :
    predict_organizational_risk env_heuristic (List.replicate 4 p0)
        = Except.error org_validation_error ∧
    (∃ a, predict_organizational_risk env_heuristic (List.replicate 5 p0) = Except.ok a) :=
  ⟨(c5_min_sample_gate env_heuristic (List.replicate 4 p0)).1.mpr (by simp),
   ((c5_min_sample_gate env_heuristic (List.replicate 5 p0)).2 rfl).mpr (by simp)⟩

/-- C7: on a cohort of 5, predict_organizational_risk raises the NameError
for the unbound local `crisis_rate` whenever the ML tier classifier supplies
the tier (the local is bound only on the heuristic fallback branch, where
the call instead completes normally). -/
theorem c7_crisis_rate_unbound :
    predict_organizational_risk env_ml (List.replicate 5 p0) = Except.error org_name_error ∧
    (∃ a, predict_organizational_risk env_heuristic (List.replicate 5 p0) = Except.ok a) :=
  ⟨rfl, ⟨_, rfl⟩⟩

/-- A cohort of five whose tier strings are outputs of the individual
classifier: one individual at overall score 14 ("At Risk") and four at 22
("Safe"). -/
def cohort_c6 : List IndividualPrediction :=
  [ { overall_hseg_score := 14, overall_risk_tier := "At Risk", category_scores := fun _ => 2 }
  , { overall_hseg_score := 22, overall_risk_tier := "Safe", category_scores := fun _ => 3 }
  , { overall_hseg_score := 22, overall_risk_tier := "Safe", category_scores := fun _ => 3 }
  , { overall_hseg_score := 22, overall_risk_tier := "Safe", category_scores := fun _ => 3 }
  , { overall_hseg_score := 22, overall_risk_tier := "Safe", category_scores := fun _ => 3 } ]

/-- The individual classifier never emits the string "At_Risk": its At-Risk
tier is spelled "At Risk", with a space. -/
theorem individual_tier_never_underscore (s : ℚ) :
    individual_overall_tier s ≠ "At_Risk" := by
  unfold individual_overall_tier
  split_ifs <;> decide

/-- C6 counterexample: in a cohort tiered by the individual classifier (one
of five at "At Risk"), the aggregator's at_risk_rate is 0, not the 1/5
fraction the classifier assigned, because it projects the distribution at
the key "At_Risk" while the classifier writes "At Risk". -/
theorem c6_counterexample :
    individual_overall_tier 14 = "At Risk" ∧
    individual_overall_tier 22 = "Safe" ∧
    cohort_c6.map IndividualPrediction.overall_risk_tier
        = ["At Risk", "Safe", "Safe", "Safe", "Safe"] ∧
    (aggregate_individual_predictions cohort_c6).at_risk_rate = 0 ∧
    ((cohort_c6.filter (fun p => p.overall_risk_tier == "At Risk")).length : ℚ)
        / (cohort_c6.length : ℚ) = 1/5 ∧
    (0 : ℚ) ≠ 1/5 := by
  refine ⟨by norm_num [individual_overall_tier], by norm_num [individual_overall_tier],
    rfl, ?_, ?_, by norm_num⟩
  · show tier_fraction cohort_c6 "At_Risk" = 0
    unfold tier_fraction
    rw [show cohort_c6.filter (fun p => p.overall_risk_tier == "At_Risk") = [] from rfl]
    simp
  · rw [show (cohort_c6.filter (fun p => p.overall_risk_tier == "At Risk")).length
        = 1 from rfl,
      show cohort_c6.length = 5 from rfl]
    norm_num

/-- C6 amended: the risk tier distribution is the projection of the
individuals' already-assigned tier strings, crisisRate and safeRate are its
projections at "Crisis" and at "Safe"+"Thriving", and atRiskRate is its
projection at the key "At_Risk" — which is 0 whenever the tiers were
assigned by the individual classifier, since that classifier spells the
tier "At Risk". -/
theorem c6_amended_rates :
    ∀ (preds : List IndividualPrediction),
      preds ≠ [] →
      (∀ p ∈ preds, ∃ s : ℚ, p.overall_risk_tier = individual_overall_tier s) →
      (aggregate_individual_predictions preds).risk_distribution
          = (fun t => tier_fraction preds t) ∧
      (aggregate_individual_predictions preds).crisis_rate
          = ((preds.filter (fun p => p.overall_risk_tier == "Crisis")).length : ℚ)
              / (preds.length : ℚ) ∧
      (aggregate_individual_predictions preds).safe_rate
          = (((preds.filter (fun p => p.overall_risk_tier == "Safe")).length : ℚ)
              + ((preds.filter (fun p => p.overall_risk_tier == "Thriving")).length : ℚ))
              / (preds.length : ℚ) ∧
      (aggregate_individual_predictions preds).at_risk_rate = 0 := by
  intro preds _ htiers
  refine ⟨rfl, rfl, ?_, ?_⟩
  · show tier_fraction preds "Safe" + tier_fraction preds "Thriving" = _
    unfold tier_fraction
    rw [div_add_div_same]
  · show tier_fraction preds "At_Risk" = 0
    unfold tier_fraction
    have hf : preds.filter (fun p => p.overall_risk_tier == "At_Risk") = [] := by
      rw [List.filter_eq_nil_iff]
      intro p hp
      obtain ⟨s, hs⟩ := htiers p hp
      simp [hs]
      exact individual_tier_never_underscore s
    rw [hf]
    simp

/-- C6 witness: the amended theorem applied to the concrete five-member
cohort. -/
theorem c6_witness :
    (aggregate_individual_predictions cohort_c6).at_risk_rate = 0 :=
  (c6_amended_rates cohort_c6 (by simp [cohort_c6]) (by
    intro p hp
    simp only [cohort_c6, List.mem_cons, List.not_mem_nil, or_false] at hp
    rcases hp with h | h | h | h | h <;> subst h
    · exact ⟨14, by norm_num [individual_overall_tier]⟩
    all_goals exact ⟨22, by norm_num [individual_overall_tier]⟩)).2.2.2

/-- Category scores for the C8 counterexample: category 1 at 1.9 and
category 2 at 1.5, the rest at 3.0. -/
def s8 : Fin 6 → ℚ := fun i => [19/10, 3/2, 3, 3, 3, 3].getD i.val 3

/-- C8 counterexample: with category 1 scoring 1.9 and category 2 scoring
1.5, the contributing factors list the category-1 label before the
category-2 label although category 2 has the strictly lower score, so the
labels are not in ascending score order. -/
theorem c8_counterexample :
    identify_risk_factors s8 false false false
        = [category_factor_label 0, category_factor_label 1] ∧
    s8 1 < s8 0 ∧
    category_factor_label 0 ≠ category_factor_label 1 := by
  have h0 : s8 0 = 19/10 := rfl
  have h1 : s8 1 = 3/2 := rfl
  have h2 : s8 2 = 3 := rfl
  have h3 : s8 3 = 3 := rfl
  have h4 : s8 4 = 3 := rfl
  have h5 : s8 5 = 3 := rfl
  refine ⟨?_, ?_, by decide⟩
  · norm_num [identify_risk_factors, category_ids, h0, h1, h2, h3, h4, h5,
      List.filter_cons, decide_eq_true_eq]
  · rw [h0, h1]
    norm_num

/-- C8 amended: the contributing factors are the labels of exactly the
categories with rawScore < 2.0 in ascending category-id order (the source
iterates categories 1..6 and does not re-sort by score), followed by the
crisis-language, specific-incident and new-employee flags, truncated to at
most 5 entries; the ordering is deterministic. -/
theorem c8_amended_factors :
    ∀ (scores : Fin 6 → ℚ) (cf sf tf : Bool),
      (identify_risk_factors scores cf sf tf).length ≤ 5 ∧
      identify_risk_factors scores cf sf tf
        = (((category_ids.filter (fun i => decide (scores i < 2))).map category_factor_label
            ++ (if cf then [crisis_factor_label] else [])
            ++ (if sf then [incident_factor_label] else [])
            ++ (if tf then [tenure_factor_label] else [])).take 5) ∧
      (category_ids.filter (fun i => decide (scores i < 2))).Pairwise (· < ·) := by
  intro scores cf sf tf
  refine ⟨?_, rfl, ?_⟩
  · exact List.length_take_le 5 _
  · exact List.Pairwise.sublist (List.filter_sublist _) (by decide)

/-- C9: intervention recommendations are nonempty only for overall tier
Crisis or At Risk; at most 3 are emitted; when the tier qualifies they are
one fixed lookup entry for each of the three lowest-scoring categories
whose rawScore is under 2.5 (a worst-3 category at or above 2.5 is skipped,
no fourth category is substituted); and every selected worst-3 category
scores no higher than every non-selected one. -/
theorem c9_interventions :
    ∀ (scores : Fin 6 → ℚ) (tier : String),
      (generate_interventions scores tier ≠ [] → tier = "Crisis" ∨ tier = "At Risk") ∧
      (generate_interventions scores tier).length ≤ 3 ∧
      ((tier = "Crisis" ∨ tier = "At Risk") →
        generate_interventions scores tier
          = ((worst_three scores).filter (fun p => decide (p.2 < 5/2))).map
              (fun p => intervention_mapping p.1)) ∧
      (∀ p ∈ worst_three scores, ∀ q ∈ (sorted_score_items scores).drop 3, p.2 ≤ q.2) := by
  intro scores tier
  refine ⟨?_, ?_, ?_, ?_⟩
  · intro hne
    unfold generate_interventions at hne
    by_cases hc : (tier == "Crisis" || tier == "At Risk") = true
    · simpa using hc
    · rw [if_neg hc] at hne
      exact absurd rfl hne
  · unfold generate_interventions
    split
    · rw [List.length_map]
      exact le_trans (List.length_filter_le _ _) (List.length_take_le 3 _)
    · simp
  · intro h
    unfold generate_interventions
    rw [if_pos (by rcases h with h | h <;> simp [h])]
  · intro p hp q hq
    have hs : List.Pairwise score_le (sorted_score_items scores) :=
      List.sorted_insertionSort score_le (score_items scores)
    rw [← List.take_append_drop 3 (sorted_score_items scores),
      List.pairwise_append] at hs
    exact hs.2.2 p hp q hq

/-- C9 witness: with every category at 1.0 and tier Crisis the three
lowest-scoring categories (ids 1, 2, 3) each yield their lookup entry,
while tier Mixed yields no interventions. -/
theorem c9_witness :
    generate_interventions (fun _ => 1) "Crisis"
        = [intervention_mapping 0, intervention_mapping 1, intervention_mapping 2] ∧
    generate_interventions (fun _ => 1) "Mixed" = [] := by
  constructor
  · rw [(c9_interventions (fun _ => 1) "Crisis").2.2.1 (Or.inl rfl)]
    norm_num [worst_three, sorted_score_items, score_items, category_ids,
      List.insertionSort, List.orderedInsert, score_le, List.filter_cons, decide_eq_true_eq]
  · by_contra hne
    rcases (c9_interventions (fun _ => 1) "Mixed").1 hne with h | h <;>
      exact absurd h (by decide)

/-- Every entry of the ranked priority list is the priority record of one
of the six categories. -/
theorem mem_calculate_priorities (stats : CohortStats) (r : PriorityRec)
    (hr : r ∈ calculate_intervention_priorities stats) :
    ∃ i : Fin 6, r = mk_priority stats i := by
  have hmem := (List.perm_insertionSort urgency_ge
    (category_ids.map (mk_priority stats))).mem_iff.mp hr
  rcases List.mem_map.mp hmem with ⟨i, _, hi⟩
  exact ⟨i, hi.symm⟩

/-- When category i carries a strictly higher urgency score than category
j, its priority record is ranked strictly above that of j in the
descending-sorted priority list. -/
theorem ranking_of_urgency_lt (stats : CohortStats) (i j : Fin 6)
    (hlt : priority_urgency_score (stats.categories j).risk_rate (stats.categories j).mean
        (org_category_weight j)
      < priority_urgency_score (stats.categories i).risk_rate (stats.categories i).mean
        (org_category_weight i)) :
    ∀ (ki kj : Fin (calculate_intervention_priorities stats).length),
      ((calculate_intervention_priorities stats).get ki).category_id = i.val + 1 →
      ((calculate_intervention_priorities stats).get kj).category_id = j.val + 1 →
      ki < kj := by
  intro ki kj hki hkj
  have hsorted : List.Sorted urgency_ge (calculate_intervention_priorities stats) :=
    List.sorted_insertionSort urgency_ge (category_ids.map (mk_priority stats))
  have hgeti : (calculate_intervention_priorities stats).get ki = mk_priority stats i := by
    obtain ⟨k, hk⟩ := mem_calculate_priorities stats _ (List.get_mem _ _ ki.isLt)
    rw [hk] at hki ⊢
    have : k.val + 1 = i.val + 1 := hki
    have hk2 : k = i := Fin.ext (Nat.add_right_cancel this)
    rw [hk2]
  have hgetj : (calculate_intervention_priorities stats).get kj = mk_priority stats j := by
    obtain ⟨k, hk⟩ := mem_calculate_priorities stats _ (List.get_mem _ _ kj.isLt)
    rw [hk] at hkj ⊢
    have : k.val + 1 = j.val + 1 := hkj
    have hk2 : k = j := Fin.ext (Nat.add_right_cancel this)
    rw [hk2]
  have hui : ((calculate_intervention_priorities stats).get ki).urgency_score
      = priority_urgency_score (stats.categories i).risk_rate (stats.categories i).mean
        (org_category_weight i) := by rw [hgeti]; rfl
  have huj : ((calculate_intervention_priorities stats).get kj).urgency_score
      = priority_urgency_score (stats.categories j).risk_rate (stats.categories j).mean
        (org_category_weight j) := by rw [hgetj]; rfl
  rcases lt_trichotomy ki kj with h | h | h
  · exact h
  · exfalso
    rw [h, huj] at hui
    exact absurd hui (ne_of_lt hlt)
  · exfalso
    have hrel : urgency_ge ((calculate_intervention_priorities stats).get kj)
        ((calculate_intervention_priorities stats).get ki) :=
      List.Sorted.rel_get_of_lt hsorted h
    unfold urgency_ge at hrel
    rw [hui, huj] at hrel
    exact absurd hrel (not_le.mpr hlt)

/-- The organizational category weights take only the values 3, 2.5 and 2,
so two distinct weights differ by at least 0.5. -/
theorem org_weight_gap (i j : Fin 6)
    (h : org_category_weight j < org_category_weight i) :
    org_category_weight j + 1/2 ≤ org_category_weight i := by
  fin_cases i <;> fin_cases j <;>
    norm_num [org_category_weight] at h ⊢

/-- Sum bounds coupling a score list in [1, 4] with its at-or-below-2.5
count: scores counted by the risk rate contribute between 1 and 2.5 each,
the others between 2.5 and 4 each. -/
theorem score_sum_bounds (l : List ℚ) (hb : ∀ s ∈ l, 1 ≤ s ∧ s ≤ 4) :
    (5/2) * (l.length : ℚ)
        - (3/2) * (((l.filter (fun s => decide (s ≤ 5/2))).length : ℚ)) ≤ l.sum ∧
    l.sum ≤ 4 * (l.length : ℚ)
        - (3/2) * (((l.filter (fun s => decide (s ≤ 5/2))).length : ℚ)) := by
  induction l with
  | nil => simp
  | cons a t ih =>
    have hb' : ∀ s ∈ t, 1 ≤ s ∧ s ≤ 4 := fun s hs => hb s (List.mem_cons_of_mem a hs)
    obtain ⟨ih1, ih2⟩ := ih hb'
    obtain ⟨ha1, ha2⟩ := hb a (List.mem_cons_self a t)
    by_cases hc : a ≤ 5/2
    · rw [List.filter_cons, if_pos (by simpa using hc)]
      simp only [List.sum_cons, List.length_cons]
      push_cast
      constructor <;> linarith
    · rw [List.filter_cons, if_neg (by simpa using hc)]
      simp only [List.sum_cons, List.length_cons]
      push_cast
      constructor <;> linarith

/-- For statistics aggregated from a nonempty cohort whose scores in
category c all lie in [1, 4], the category mean is pinned to its risk
rate: 2.5 - 1.5*riskRate <= mean <= 4 - 1.5*riskRate (mean and risk rate
are computed from the same score list). -/
theorem cat_mean_risk_bounds (preds : List IndividualPrediction) (hne : preds ≠ [])
    (c : Fin 6) (hb : ∀ p ∈ preds, 1 ≤ p.category_scores c ∧ p.category_scores c ≤ 4) :
    5/2 - (3/2) * ((aggregate_individual_predictions preds).categories c).risk_rate
        ≤ ((aggregate_individual_predictions preds).categories c).mean ∧
    ((aggregate_individual_predictions preds).categories c).mean
        ≤ 4 - (3/2) * ((aggregate_individual_predictions preds).categories c).risk_rate := by
  have hn0 : 0 < preds.length := List.length_pos.mpr hne
  have hnq : (0:ℚ) < (preds.length : ℚ) := by exact_mod_cast hn0
  have hmean : ((aggregate_individual_predictions preds).categories c).mean
      = (preds.map (fun p => p.category_scores c)).sum / (preds.length : ℚ) := by
    simp [aggregate_individual_predictions, aggregate_category, list_mean, List.length_map]
  have hrr : ((aggregate_individual_predictions preds).categories c).risk_rate
      = (((preds.map (fun p => p.category_scores c)).filter
            (fun s => decide (s ≤ 5/2))).length : ℚ) / (preds.length : ℚ) := by
    simp [aggregate_individual_predictions, aggregate_category, List.length_map,
      Nat.max_eq_right hn0]
  obtain ⟨h1, h2⟩ := score_sum_bounds (preds.map (fun p => p.category_scores c))
    (by
      intro s hs
      rcases List.mem_map.mp hs with ⟨p, hp, rfl⟩
      exact hb p hp)
  rw [List.length_map] at h1 h2
  rw [hmean, hrr]
  constructor
  · rw [le_div_iff hnq]
    have hexp : (5/2 - 3/2 * ((((preds.map (fun p => p.category_scores c)).filter
          (fun s => decide (s ≤ 5/2))).length : ℚ) / (preds.length : ℚ)))
          * (preds.length : ℚ)
        = (5/2) * (preds.length : ℚ)
          - (3/2) * (((preds.map (fun p => p.category_scores c)).filter
              (fun s => decide (s ≤ 5/2))).length : ℚ) := by
      field_simp
      ring
    rw [hexp]
    exact h1
  · rw [div_le_iff hnq]
    have hexp : (4 - 3/2 * ((((preds.map (fun p => p.category_scores c)).filter
          (fun s => decide (s ≤ 5/2))).length : ℚ) / (preds.length : ℚ)))
          * (preds.length : ℚ)
        = 4 * (preds.length : ℚ)
          - (3/2) * (((preds.map (fun p => p.category_scores c)).filter
              (fun s => decide (s ≤ 5/2))).length : ℚ) := by
      field_simp
      ring
    rw [hexp]
    exact h2

/-- C10: on every statistics record the ranking can receive — aggregated
from a nonempty cohort whose category scores lie in [1.0, 4.0], as the
individual predictor guarantees by clamping — two categories with equal
riskRate are ranked by weight: the one with the higher category weight
receives a strictly higher urgencyScore and is ranked above the other.
Equal risk rates force the two means within 1.5 of each other, so the
mean term of urgencyScore (at most 0.4*1.5/28 = 3/140) never outweighs
the minimal weight-term gap 0.2*0.5/3 = 1/30; the margin is 1/84. -/
theorem c10_equal_risk_weight_ranking :
    ∀ (preds : List IndividualPrediction), preds ≠ [] →
      (∀ p ∈ preds, ∀ c : Fin 6, 1 ≤ p.category_scores c ∧ p.category_scores c ≤ 4) →
      ∀ i j : Fin 6,
        ((aggregate_individual_predictions preds).categories i).risk_rate
            = ((aggregate_individual_predictions preds).categories j).risk_rate →
        org_category_weight j < org_category_weight i →
        priority_urgency_score
            ((aggregate_individual_predictions preds).categories j).risk_rate
            ((aggregate_individual_predictions preds).categories j).mean
            (org_category_weight j)
          < priority_urgency_score
            ((aggregate_individual_predictions preds).categories i).risk_rate
            ((aggregate_individual_predictions preds).categories i).mean
            (org_category_weight i) ∧
        ∀ (ki kj : Fin (calculate_intervention_priorities
              (aggregate_individual_predictions preds)).length),
          ((calculate_intervention_priorities
              (aggregate_individual_predictions preds)).get ki).category_id = i.val + 1 →
          ((calculate_intervention_priorities
              (aggregate_individual_predictions preds)).get kj).category_id = j.val + 1 →
          ki < kj := by
  intro preds hne hb i j hrr hw
  obtain ⟨hjlo, _⟩ := cat_mean_risk_bounds preds hne j (fun p hp => hb p hp j)
  obtain ⟨_, hiub⟩ := cat_mean_risk_bounds preds hne i (fun p hp => hb p hp i)
  have hwgap := org_weight_gap i j hw
  have hlt : priority_urgency_score
      ((aggregate_individual_predictions preds).categories j).risk_rate
      ((aggregate_individual_predictions preds).categories j).mean
      (org_category_weight j)
      < priority_urgency_score
      ((aggregate_individual_predictions preds).categories i).risk_rate
      ((aggregate_individual_predictions preds).categories i).mean
      (org_category_weight i) := by
    unfold priority_urgency_score
    rw [hrr] at hiub ⊢
    linarith
  exact ⟨hlt, ranking_of_urgency_lt (aggregate_individual_predictions preds) i j hlt⟩

/-- C10 witness: the theorem applied to a concrete cohort of five
identical predictions (all category scores 2.5), where categories 1 and 3
have equal risk rate 1.0 and category 1 has the larger weight 3.0 > 2.0. -/
theorem c10_witness :
    priority_urgency_score
        ((aggregate_individual_predictions (List.replicate 5 p0)).categories 2).risk_rate
        ((aggregate_individual_predictions (List.replicate 5 p0)).categories 2).mean
        (org_category_weight 2)
      < priority_urgency_score
        ((aggregate_individual_predictions (List.replicate 5 p0)).categories 0).risk_rate
        ((aggregate_individual_predictions (List.replicate 5 p0)).categories 0).mean
        (org_category_weight 0) :=
  (c10_equal_risk_weight_ranking (List.replicate 5 p0) (by simp)
    (fun p hp c => by
      rw [List.eq_of_mem_replicate hp]
      constructor <;> norm_num [p0])
    0 2
    (by simp [aggregate_individual_predictions, aggregate_category, p0, List.map_replicate])
    (by norm_num [org_category_weight])).1
